import Mathlib

/-!
Shallow embedding of the test-execution lifecycle orchestrator of the
repository (Playwright global setup / teardown, configuration manager,
availability probe, log-performance aggregation, artifact collection),
together with theorems settling the specification claims about it.

All definitions are translated from the TypeScript source:
 * `src/src/setup/global-setup.ts` — `globalSetup`, `validateEnvironment`,
   `emergencyCleanup`;
 * `src/unnamed/part_004` — `globalTeardown`, `organizeArtifacts`,
   `collectPerformanceData`, `generatePerformanceSummary`,
   `calculateAverage`;
 * `src/unnamed/part_002` — `ApiHelper.waitForEndpoint`;
 * `src/src/config/configManager.ts` — `ConfigManager.validateConfiguration`,
   `get`, `set`, `clearOverrides`.
External collaborators (the filesystem, the WHATWG URL parser, JSON.parse,
the HTTP client) are modelled as function parameters, so every theorem
quantifies over the behaviour of the environment.
-/

/-- Decidable equality for `Except`, used to evaluate counterexamples and
witnesses on concrete runs. -/
instance {ε α : Type} [DecidableEq ε] [DecidableEq α] :
    DecidableEq (Except ε α) := fun a b =>
  match a, b with
  | Except.ok u, Except.ok v =>
    if h : u = v then isTrue (by rw [h]) else isFalse (by simp [h])
  | Except.ok _, Except.error _ => isFalse (by simp)
  | Except.error _, Except.ok _ => isFalse (by simp)
  | Except.error m, Except.error n =>
    if h : m = n then isTrue (by rw [h]) else isFalse (by simp [h])

namespace Lifecycle

/-- Outcome of awaiting one phase's body: either it returns normally or it
throws with a message. -/
inductive Outcome where
  | ok : Outcome
  | err (msg : String) : Outcome
deriving DecidableEq, Repr

/-- Terminal status recorded for one executed phase. -/
inductive PhaseStatus where
  | succeeded : PhaseStatus
  | failed (msg : String) : PhaseStatus
deriving DecidableEq, Repr

/-- One entry of the execution ledger: the phase's name and how it ended. -/
structure PhaseResult where
  name : String
  status : PhaseStatus
deriving DecidableEq, Repr

/-- A setup phase: a named unit of work whose body produces the given
outcome when it is actually executed.  In `globalSetup` the eight phase
bodies are `createDirectories`, `validateEnvironment`, `setupBrowsers`,
`verifyTestSiteAvailability`, `verifyApplicationEndpoints`,
`cleanPreviousArtifacts`, `setupPerformanceMonitoring`,
`setupTestEnvironmentInfo`, each of which may throw. -/
structure SetupPhase where
  name : String
  outcome : Outcome
deriving DecidableEq, Repr

/-- Sequential fail-fast execution of the `try` block of `globalSetup`
(`global-setup.ts` lines 30-63): each phase is awaited in order; the first
phase that throws ends the block with that error and no later phase is
started.  Returns the ledger of phases that actually ran together with the
propagated result of the block. -/
def runPhases : List SetupPhase → List PhaseResult × Except String Unit
  | [] => ([], Except.ok ())
  | p :: rest =>
    match p.outcome with
    | Outcome.ok =>
      let (rs, e) := runPhases rest
      (⟨p.name, PhaseStatus.succeeded⟩ :: rs, e)
    | Outcome.err m => ([⟨p.name, PhaseStatus.failed m⟩], Except.error m)

/-- Result of one whole `globalSetup` invocation: the ledger of executed
phases, how many times `emergencyCleanup` was invoked, and the value
returned (or rethrown) to the caller. -/
structure SetupRun where
  ledger : List PhaseResult
  cleanups : Nat
  result : Except String Unit
deriving DecidableEq, Repr

/-- `globalSetup` (`global-setup.ts` lines 20-80): run the phases in order;
on success return normally with no cleanup; on the first failure the
`catch` block runs `emergencyCleanup()` once and rethrows the original
error. -/
def globalSetupRun (phases : List SetupPhase) : SetupRun :=
  match runPhases phases with
  | (rs, Except.ok _) => ⟨rs, 0, Except.ok ()⟩
  | (rs, Except.error m) => ⟨rs, 1, Except.error m⟩

/-- A teardown phase: its `inner` outcome is what the body of the phase
function produces before that function's own `try`/`catch`. -/
structure TearPhase where
  name : String
  inner : Outcome
deriving DecidableEq, Repr

/-- One teardown phase function (`processTestArtifacts`,
`cleanupTemporaryFiles`, `archiveLogs`, `cleanupBrowserProcesses`,
`generateFinalSummary` in `part_004`): the body runs inside a
`try`/`catch` that logs the error and returns normally, so the phase
records its failure but never rethrows. -/
def phaseStep (p : TearPhase) : PhaseResult × Except String Unit :=
  match p.inner with
  | Outcome.ok => (⟨p.name, PhaseStatus.succeeded⟩, Except.ok ())
  | Outcome.err m => (⟨p.name, PhaseStatus.failed m⟩, Except.ok ())

/-- The `try` block of `globalTeardown` (`part_004` lines 889-919): the
phase functions are awaited in order; if one of them did rethrow, the block
would stop there and surface that error to the surrounding `catch`. -/
def runTearPhases : List TearPhase → List PhaseResult × Except String Unit
  | [] => ([], Except.ok ())
  | p :: rest =>
    match phaseStep p with
    | (r, Except.error m) => ([r], Except.error m)
    | (r, Except.ok _) =>
      let (rs, e) := runTearPhases rest
      (r :: rs, e)

/-- One whole `globalTeardown` invocation (`part_004` lines 882-935): the
ledger of executed phases and a flag recording whether the surrounding
`catch` fired (running `basicCleanup`).  The `catch` block does not
rethrow, so the function itself always returns normally: its result type
is `Except.ok` of the run data. -/
def globalTeardownRun (phases : List TearPhase) :
    Except String (List PhaseResult × Bool) :=
  match runTearPhases phases with
  | (rs, Except.ok _) => Except.ok (rs, false)
  | (rs, Except.error _) => Except.ok (rs, true)

/-- Number of phases that actually execute under fail-fast sequencing: the
whole list when every phase succeeds, otherwise the prefix up to and
including the first failing phase. -/
def ledgerLen : List SetupPhase → Nat
  | [] => 0
  | p :: rest =>
    match p.outcome with
    | Outcome.ok => 1 + ledgerLen rest
    | Outcome.err _ => 1

theorem runPhases_all_ok (phases : List SetupPhase)
    (h : ∀ p ∈ phases, p.outcome = Outcome.ok) :
    runPhases phases =
      (phases.map fun p => ⟨p.name, PhaseStatus.succeeded⟩, Except.ok ()) := by
  induction phases with
  | nil => rfl
  | cons p rest ih =>
    have hp : p.outcome = Outcome.ok := h p (List.mem_cons_self p rest)
    have hrest : ∀ q ∈ rest, q.outcome = Outcome.ok :=
      fun q hq => h q (List.mem_cons_of_mem p hq)
    simp [runPhases, hp, ih hrest]

theorem runPhases_length (phases : List SetupPhase) :
    (runPhases phases).1.length = ledgerLen phases := by
  induction phases with
  | nil => rfl
  | cons p rest ih =>
    cases hp : p.outcome with
    | ok =>
      simp only [runPhases, hp, List.length_cons, ledgerLen, ih]
      omega
    | err m => simp [runPhases, ledgerLen, hp]

theorem ledgerLen_le (phases : List SetupPhase) :
    ledgerLen phases ≤ phases.length := by
  induction phases with
  | nil => exact Nat.le_refl 0
  | cons p rest ih =>
    cases hp : p.outcome with
    | ok =>
      simp only [ledgerLen, hp, List.length_cons]
      omega
    | err m =>
      simp only [ledgerLen, hp, List.length_cons]
      omega

theorem runTearPhases_eq (phases : List TearPhase) :
    runTearPhases phases =
      (phases.map fun p => (phaseStep p).1, Except.ok ()) := by
  induction phases with
  | nil => rfl
  | cons p rest ih =>
    cases hp : p.inner with
    | ok => simp [runTearPhases, phaseStep, hp, ih]
    | err m => simp [runTearPhases, phaseStep, hp, ih]

theorem globalSetupRun_ledger (phases : List SetupPhase) :
    (globalSetupRun phases).ledger = (runPhases phases).1 := by
  unfold globalSetupRun
  cases h : runPhases phases with
  | mk rs e => cases e <;> simp

/-- Ledger of one teardown run (the run always returns normally; an
impossible propagated error would yield the empty ledger). -/
def tearLedger (phases : List TearPhase) : List PhaseResult :=
  match globalTeardownRun phases with
  | Except.ok (rs, _) => rs
  | Except.error _ => []

theorem runPhases_failfast (pre : List SetupPhase) (p : SetupPhase)
    (post : List SetupPhase) (m : String)
    (hpre : ∀ q ∈ pre, q.outcome = Outcome.ok)
    (hp : p.outcome = Outcome.err m) :
    runPhases (pre ++ p :: post) =
      ((pre.map fun q => ⟨q.name, PhaseStatus.succeeded⟩) ++
        [⟨p.name, PhaseStatus.failed m⟩], Except.error m) := by
  induction pre with
  | nil => simp [runPhases, hp]
  | cons q pre' ih =>
    have hq : q.outcome = Outcome.ok := hpre q (List.mem_cons_self q pre')
    have hrest : ∀ r ∈ pre', r.outcome = Outcome.ok :=
      fun r hr => hpre r (List.mem_cons_of_mem q hr)
    simp [runPhases, hq, ih hrest]

/-- The eight phases registered by `globalSetup` (`global-setup.ts` lines
30-53), here in a run where `validateEnvironment` throws because a
required environment variable is missing and every other phase would have
succeeded. -/
def demoSetupPipeline : List SetupPhase :=
  [⟨"createDirectories", Outcome.ok⟩,
   ⟨"validateEnvironment",
     Outcome.err "Missing required environment variables: USERNAME"⟩,
   ⟨"setupBrowsers", Outcome.ok⟩,
   ⟨"verifyTestSiteAvailability", Outcome.ok⟩,
   ⟨"verifyApplicationEndpoints", Outcome.ok⟩,
   ⟨"cleanPreviousArtifacts", Outcome.ok⟩,
   ⟨"setupPerformanceMonitoring", Outcome.ok⟩,
   ⟨"setupTestEnvironmentInfo", Outcome.ok⟩]

/-- The same eight setup phases in a run where every phase succeeds. -/
def okSetupPipeline : List SetupPhase :=
  [⟨"createDirectories", Outcome.ok⟩,
   ⟨"validateEnvironment", Outcome.ok⟩,
   ⟨"setupBrowsers", Outcome.ok⟩,
   ⟨"verifyTestSiteAvailability", Outcome.ok⟩,
   ⟨"verifyApplicationEndpoints", Outcome.ok⟩,
   ⟨"cleanPreviousArtifacts", Outcome.ok⟩,
   ⟨"setupPerformanceMonitoring", Outcome.ok⟩,
   ⟨"setupTestEnvironmentInfo", Outcome.ok⟩]

/-- The five phases registered by `globalTeardown` (`part_004` lines
889-911), with `archiveLogs` failing internally. -/
def demoTeardownPipeline : List TearPhase :=
  [⟨"processTestArtifacts", Outcome.ok⟩,
   ⟨"cleanupTemporaryFiles", Outcome.ok⟩,
   ⟨"archiveLogs", Outcome.err "EACCES: permission denied"⟩,
   ⟨"cleanupBrowserProcesses", Outcome.ok⟩,
   ⟨"generateFinalSummary", Outcome.ok⟩]

/-- C1 counterexample: in the eight-phase setup pipeline where
`validateEnvironment` (the second phase) throws, the resulting ledger has
2 entries, not 8 — the six aborted phases are omitted entirely, and no
`Skipped`-equivalent entry is recorded for any of them (shown here for
`setupBrowsers`). -/
theorem C1_ledger_counterexample :
    (globalSetupRun demoSetupPipeline).ledger.length ≠
        demoSetupPipeline.length ∧
      (globalSetupRun demoSetupPipeline).ledger.all
        (fun r => r.name ≠ "setupBrowsers") = true := by
  constructor
  · decide
  · decide

/-- C1 (amended): a run's ledger length equals the number of phases that
actually executed, not the number registered.  For the fail-fast setup
pipeline this is `ledgerLen`: all phases when none fails, otherwise the
succeeded prefix plus the single failed phase, never more than the number
registered, and equal to it exactly when no phase fails.  For the
fail-soft teardown pipeline every registered phase produces exactly one
`PhaseResult`. -/
theorem C1_ledger_length (sphases : List SetupPhase)
    (tphases : List TearPhase) :
    (globalSetupRun sphases).ledger.length = ledgerLen sphases ∧
      ledgerLen sphases ≤ sphases.length ∧
      ((∀ p ∈ sphases, p.outcome = Outcome.ok) →
        (globalSetupRun sphases).ledger.length = sphases.length) ∧
      (tearLedger tphases).length = tphases.length := by
  refine ⟨?_, ledgerLen_le sphases, ?_, ?_⟩
  · rw [globalSetupRun_ledger]; exact runPhases_length sphases
  · intro h
    rw [globalSetupRun_ledger, runPhases_all_ok sphases h]
    simp
  · unfold tearLedger globalTeardownRun
    rw [runTearPhases_eq]
    simp

/-- C1 witness: the amended statement evaluated on the concrete all-ok
setup pipeline and the concrete teardown pipeline with a failing phase. -/
theorem C1_ledger_length_witness :
    (globalSetupRun okSetupPipeline).ledger.length = 8 ∧
      (tearLedger demoTeardownPipeline).length = 5 := by
  refine ⟨?_, ?_⟩
  · exact (C1_ledger_length okSetupPipeline demoTeardownPipeline).2.2.1
      (by decide)
  · exact (C1_ledger_length okSetupPipeline demoTeardownPipeline).2.2.2

/-- C2: under the fail-fast setup pipeline, when every phase before `p`
succeeds and `p` throws `m`, the run's ledger contains exactly the
succeeded prefix followed by `p` marked `Failed` (no later phase is ever
executed), `emergencyCleanup` is invoked exactly once, and the original
error `m` is rethrown to the caller. -/
theorem C2_failfast_abort (pre : List SetupPhase) (p : SetupPhase)
    (post : List SetupPhase) (m : String)
    (hpre : ∀ q ∈ pre, q.outcome = Outcome.ok)
    (hp : p.outcome = Outcome.err m) :
    globalSetupRun (pre ++ p :: post) =
      ⟨(pre.map fun q => ⟨q.name, PhaseStatus.succeeded⟩) ++
        [⟨p.name, PhaseStatus.failed m⟩], 1, Except.error m⟩ := by
  unfold globalSetupRun
  rw [runPhases_failfast pre p post m hpre hp]

/-- C2 witness: phases `[A(ok), B(throws), C(ok)]` yield a ledger holding
`A` and `B` only, one cleanup invocation, and the original error. -/
theorem C2_failfast_abort_witness :
    globalSetupRun
        [⟨"A", Outcome.ok⟩, ⟨"B", Outcome.err "boom"⟩, ⟨"C", Outcome.ok⟩] =
      ⟨[⟨"A", PhaseStatus.succeeded⟩, ⟨"B", PhaseStatus.failed "boom"⟩],
        1, Except.error "boom"⟩ :=
  C2_failfast_abort [⟨"A", Outcome.ok⟩] ⟨"B", Outcome.err "boom"⟩
    [⟨"C", Outcome.ok⟩] "boom" (by decide) rfl

/-- Temporary directories removed by `emergencyCleanup`
(`global-setup.ts` line 560). -/
def tempDirs : List String := ["temp", ".temp", "tmp"]

/-- Partial state files removed by `emergencyCleanup`
(`global-setup.ts` lines 570-573). -/
def partialFiles : List String :=
  ["test-results/environment-info.json", "config/performance.json"]

/-- One `try { await op } catch { / ignore / }` around a single
filesystem operation inside `emergencyCleanup`: whatever the operation
does, the surrounding code continues normally. -/
def ignoreErr (x : Except String Unit) : Except String Unit :=
  match x with
  | Except.ok _ => Except.ok ()
  | Except.error _ => Except.ok ()

/-- A `for (const p of paths) { try { await op(p) } catch { / ignore / } }`
loop over a list of paths: each operation is individually guarded, and an
error escaping one iteration would end the loop. -/
def runAllIgnoring (op : String → Except String Unit) :
    List String → Except String Unit
  | [] => Except.ok ()
  | d :: rest =>
    match ignoreErr (op d) with
    | Except.ok _ => runAllIgnoring op rest
    | Except.error e => Except.error e

/-- The body of `emergencyCleanup` (`global-setup.ts` lines 558-581):
remove each temporary directory, then each partial state file, each
operation individually guarded.  `rmdir` and `unlink` describe what the
filesystem does on each path — an arbitrary filesystem state. -/
def cleanupBody (rmdir unlink : String → Except String Unit) :
    Except String Unit :=
  match runAllIgnoring rmdir tempDirs with
  | Except.ok _ => runAllIgnoring unlink partialFiles
  | Except.error e => Except.error e

/-- The outer `try`/`catch` of `emergencyCleanup` (`global-setup.ts`
lines 555-590): any error escaping the body is logged and swallowed, so
the function returns normally. -/
def catchLogged (x : Except String Unit) : Except String Unit :=
  match x with
  | Except.ok _ => Except.ok ()
  | Except.error _ => Except.ok ()

/-- `emergencyCleanup`, parameterized by the filesystem's behaviour. -/
def emergencyCleanup (rmdir unlink : String → Except String Unit) :
    Except String Unit :=
  catchLogged (cleanupBody rmdir unlink)

/-- The `catch` block of `globalSetup` (`global-setup.ts` lines 64-79):
run the cleanup, then rethrow the original error.  If the cleanup itself
threw, that error would escape the `catch` block instead of the original
one. -/
def setupCatchBlock (originalErr : String)
    (cleanup : Except String Unit) : Except String Unit :=
  match cleanup with
  | Except.ok _ => Except.error originalErr
  | Except.error e => Except.error e

theorem ignoreErr_ok (x : Except String Unit) : ignoreErr x = Except.ok () := by
  cases x <;> rfl

theorem runAllIgnoring_ok (op : String → Except String Unit)
    (l : List String) : runAllIgnoring op l = Except.ok () := by
  induction l with
  | nil => rfl
  | cons a as ih => simp [runAllIgnoring, ignoreErr_ok, ih]

/-- C9: for every filesystem behaviour, `emergencyCleanup` returns
normally (never throws), and consequently the error leaving
`globalSetup`'s catch block is always the original phase error, never an
error arising from the cleanup itself. -/
theorem C9_cleanup_never_throws (rmdir unlink : String → Except String Unit)
    (originalErr : String) :
    emergencyCleanup rmdir unlink = Except.ok () ∧
      setupCatchBlock originalErr (emergencyCleanup rmdir unlink) =
        Except.error originalErr := by
  have hbody : cleanupBody rmdir unlink = Except.ok () := by
    unfold cleanupBody
    rw [runAllIgnoring_ok rmdir tempDirs]
    exact runAllIgnoring_ok unlink partialFiles
  constructor
  · unfold emergencyCleanup
    rw [hbody]
    rfl
  · unfold setupCatchBlock emergencyCleanup
    rw [hbody]
    rfl

/-- C3: a teardown run never propagates an error past its own boundary —
it always returns `Except.ok`, with every registered phase executed in
order and each phase failure recorded as a `Failed` result by the phase's
own catch (`basicCleanup` never fires because no phase rethrows). -/
theorem C3_teardown_swallows (phases : List TearPhase) :
    globalTeardownRun phases =
      Except.ok (phases.map fun p => (phaseStep p).1, false) := by
  unfold globalTeardownRun
  rw [runTearPhases_eq]

end Lifecycle

namespace EnvValidation

/-- A configuration snapshot: the environment variables that are set.
An absent key models `process.env[k] === undefined`. -/
def Config : Type := List (String × String)

/-- `process.env[k]`. -/
def getEnv (env : Config) (k : String) : Option String :=
  (List.find? (fun p => p.1 = k) env).map (fun p => p.2)

/-- JavaScript truthiness of a `string | undefined` value: `undefined`
and the empty string are falsy. -/
def truthy : Option String → Bool
  | none => false
  | some s => s ≠ ""

/-- JavaScript `parseInt` on the decimal strings this code feeds it: the
longest leading run of digits, `NaN` (here `none`) when there is none. -/
def parseIntJs (s : String) : Option Nat :=
  let ds := s.toList.takeWhile Char.isDigit
  if ds.isEmpty then none
  else some (ds.foldl (fun acc c => 10 * acc + (c.toNat - 48)) 0)

/-- Required environment variables (`global-setup.ts` lines 124-129). -/
def requiredEnvVars : List String :=
  ["BASE_URL", "API_BASE_URL", "USERNAME", "PASSWORD"]

/-- The URL-shaped variables checked by `validateEnvironment`
(`global-setup.ts` lines 167-170). -/
def urlChecks (env : Config) : List (String × Option String) :=
  [("BASE_URL", getEnv env "BASE_URL"),
   ("API_BASE_URL", getEnv env "API_BASE_URL")]

/-- Numeric variables and their declared minima
(`global-setup.ts` lines 181-187). -/
def numericVars : List (String × Nat) :=
  [("TIMEOUT", 1000), ("API_TIMEOUT", 1000), ("WORKERS", 1),
   ("VIEWPORT_WIDTH", 320), ("VIEWPORT_HEIGHT", 240)]

/-- The URL loop of `validateEnvironment` (`global-setup.ts` lines
172-178): it throws at the first configured URL the parser rejects. -/
def firstUrlError (isValidUrl : String → Bool) (env : Config) :
    Option String :=
  (urlChecks env).findSome? fun c =>
    match c.2 with
    | some v =>
      if v ≠ "" && !isValidUrl v then
        some ("Invalid URL format for " ++ c.1 ++ ": " ++ v)
      else none
    | none => none

/-- The numeric loop of `validateEnvironment` (`global-setup.ts` lines
189-198): it throws at the first configured value that is `NaN` or below
its minimum. -/
def firstNumericError (env : Config) : Option String :=
  numericVars.findSome? fun nv =>
    match getEnv env nv.1 with
    | some v =>
      if v ≠ "" then
        match parseIntJs v with
        | none =>
          some ("Invalid " ++ nv.1 ++ " value: " ++ v ++
            " (minimum: " ++ toString nv.2 ++ ")")
        | some n =>
          if n < nv.2 then
            some ("Invalid " ++ nv.1 ++ " value: " ++ v ++
              " (minimum: " ++ toString nv.2 ++ ")")
          else none
      else none
    | none => none

/-- The required keys a configuration lacks, in declaration order. -/
def missingList (env : Config) : List String :=
  requiredEnvVars.filter fun k => !truthy (getEnv env k)

/-- `validateEnvironment` (`global-setup.ts` lines 121-210): collect the
missing required variables and, if any, throw one message naming them
all — before any URL or numeric check runs; otherwise check URLs, then
numeric values, throwing at the first violation found.  The WHATWG URL
parser is the external collaborator `isValidUrl`. -/
def validateEnvironment (isValidUrl : String → Bool) (env : Config) :
    Except String Unit :=
  let missingVars := missingList env
  if missingVars.length > 0 then
    Except.error ("Missing required environment variables: " ++
      String.intercalate ", " missingVars)
  else
    match firstUrlError isValidUrl env with
    | some e => Except.error e
    | none =>
      match firstNumericError env with
      | some e => Except.error e
      | none => Except.ok ()

end EnvValidation

namespace ConfigMgr

/-- The configuration fields that `ConfigManager.validateConfiguration`
(`configManager.ts` lines 98-141) inspects.  String fields are the
resolved values (possibly empty); numeric fields are JavaScript numbers,
with `none` modelling `NaN` from `parseInt`. -/
structure EnvCfg where
  BASE_URL : String
  API_BASE_URL : String
  USERNAME : String
  PASSWORD : String
  TIMEOUT : Option Int
  WORKERS : Option Int
  viewportWidth : Option Int
  viewportHeight : Option Int
deriving DecidableEq, Repr

/-- JavaScript truthiness of a number: `0` and `NaN` are falsy. -/
def numTruthy : Option Int → Bool
  | none => false
  | some n => n ≠ 0

/-- JavaScript `<` on a possibly-`NaN` number: any comparison with `NaN`
is false. -/
def numLt (v : Option Int) (m : Int) : Bool :=
  match v with
  | none => false
  | some n => n < m

/-- The required variables checked by `validateConfiguration`
(`configManager.ts` line 104). -/
def requiredVars : List String :=
  ["BASE_URL", "API_BASE_URL", "USERNAME", "PASSWORD"]

/-- `this.config.environment[envVar]` for the four required variables. -/
def reqField (env : EnvCfg) : String → String
  | "BASE_URL" => env.BASE_URL
  | "API_BASE_URL" => env.API_BASE_URL
  | "USERNAME" => env.USERNAME
  | "PASSWORD" => env.PASSWORD
  | _ => ""

/-- The violations `validateConfiguration` can push, one constructor per
`errors.push` site in `configManager.ts` lines 101-132. -/
inductive ConfigError where
  | missingKey (name : String)
  | invalidUrl (name value : String)
  | timeoutTooSmall
  | workersTooSmall
  | viewportTooSmall
deriving DecidableEq, Repr

/-- The exact message text pushed for each violation. -/
def renderConfigError : ConfigError → String
  | ConfigError.missingKey name =>
    "Missing required environment variable: " ++ name
  | ConfigError.invalidUrl name value => "Invalid " ++ name ++ ": " ++ value
  | ConfigError.timeoutTooSmall => "TIMEOUT must be at least 1000ms"
  | ConfigError.workersTooSmall => "WORKERS must be at least 1"
  | ConfigError.viewportTooSmall =>
    "Viewport dimensions must be at least 320x240"

/-- The required-variable loop (`configManager.ts` lines 104-109): one
error pushed per falsy required field. -/
def missingKeyErrors (env : EnvCfg) : List ConfigError :=
  requiredVars.filterMap fun k =>
    if reqField env k = "" then some (ConfigError.missingKey k) else none

/-- The URL checks (`configManager.ts` lines 112-118), guarded by
truthiness of the value. -/
def urlErrors (isValidUrl : String → Bool) (env : EnvCfg) :
    List ConfigError :=
  (if env.BASE_URL ≠ "" && !isValidUrl env.BASE_URL then
    [ConfigError.invalidUrl "BASE_URL" env.BASE_URL]
  else []) ++
  (if env.API_BASE_URL ≠ "" && !isValidUrl env.API_BASE_URL then
    [ConfigError.invalidUrl "API_BASE_URL" env.API_BASE_URL]
  else [])

/-- The numeric checks (`configManager.ts` lines 121-127). -/
def numericErrors (env : EnvCfg) : List ConfigError :=
  (if numTruthy env.TIMEOUT && numLt env.TIMEOUT 1000 then
    [ConfigError.timeoutTooSmall]
  else []) ++
  (if numTruthy env.WORKERS && numLt env.WORKERS 1 then
    [ConfigError.workersTooSmall]
  else [])

/-- The viewport check (`configManager.ts` lines 130-132). -/
def viewportErrors (env : EnvCfg) : List ConfigError :=
  if numLt env.viewportWidth 320 || numLt env.viewportHeight 240 then
    [ConfigError.viewportTooSmall]
  else []

/-- All violations collected by `validateConfiguration`
(`configManager.ts` lines 98-141), in push order: every category is
examined and appended before anything is thrown. -/
def validateConfigurationErrors (isValidUrl : String → Bool)
    (env : EnvCfg) : List ConfigError :=
  missingKeyErrors env ++ urlErrors isValidUrl env ++
    numericErrors env ++ viewportErrors env

/-- `validateConfiguration` itself: throw one aggregated message when any
violation was collected. -/
def validateConfiguration (isValidUrl : String → Bool) (env : EnvCfg) :
    Except String Unit :=
  let errors := validateConfigurationErrors isValidUrl env
  if errors.length > 0 then
    Except.error ("Configuration validation failed:\n" ++
      String.intercalate "\n" (errors.map renderConfigError))
  else Except.ok ()

/-- Recognizer for missing-required-key violations. -/
def isMissingKeyErr : ConfigError → Bool
  | ConfigError.missingKey _ => true
  | _ => false

theorem filterMap_guard {α β : Type} (p : α → Prop) [DecidablePred p]
    (f : α → β) (l : List α) :
    (l.filterMap fun a => if p a then some (f a) else none) =
      (l.filter fun a => decide (p a)).map f := by
  induction l with
  | nil => rfl
  | cons a as ih =>
    by_cases h : p a <;>
      simp [List.filterMap_cons, List.filter_cons, h, ih]

theorem missingKeyErrors_eq (env : EnvCfg) :
    missingKeyErrors env =
      (requiredVars.filter fun k => reqField env k = "").map
        ConfigError.missingKey :=
  filterMap_guard (fun k => reqField env k = "") ConfigError.missingKey
    requiredVars

theorem filter_missing_map (l : List String) :
    (l.map ConfigError.missingKey).filter isMissingKeyErr =
      l.map ConfigError.missingKey := by
  induction l with
  | nil => rfl
  | cons a as ih => simp [isMissingKeyErr, ih]

theorem urlErrors_filter_missing (u : String → Bool) (env : EnvCfg) :
    (urlErrors u env).filter isMissingKeyErr = [] := by
  unfold urlErrors
  split_ifs <;> simp [isMissingKeyErr]

theorem numericErrors_filter_missing (env : EnvCfg) :
    (numericErrors env).filter isMissingKeyErr = [] := by
  unfold numericErrors
  split_ifs <;> simp [isMissingKeyErr]

theorem viewportErrors_filter_missing (env : EnvCfg) :
    (viewportErrors env).filter isMissingKeyErr = [] := by
  unfold viewportErrors
  split_ifs <;> simp [isMissingKeyErr]

theorem timeout_mem_numericErrors (env : EnvCfg) :
    ConfigError.timeoutTooSmall ∈ numericErrors env ↔
      (numTruthy env.TIMEOUT && numLt env.TIMEOUT 1000) = true := by
  unfold numericErrors
  split_ifs <;> simp_all

theorem timeout_not_mem_missing (env : EnvCfg) :
    ConfigError.timeoutTooSmall ∉ missingKeyErrors env := by
  rw [missingKeyErrors_eq]
  simp

theorem timeout_not_mem_url (u : String → Bool) (env : EnvCfg) :
    ConfigError.timeoutTooSmall ∉ urlErrors u env := by
  unfold urlErrors
  split_ifs <;> simp

theorem timeout_not_mem_viewport (env : EnvCfg) :
    ConfigError.timeoutTooSmall ∉ viewportErrors env := by
  unfold viewportErrors
  split_ifs <;> simp

theorem baseUrl_mem_urlErrors (u : String → Bool) (env : EnvCfg) :
    ConfigError.invalidUrl "BASE_URL" env.BASE_URL ∈ urlErrors u env ↔
      (env.BASE_URL ≠ "" ∧ u env.BASE_URL = false) := by
  have hne : ("BASE_URL" : String) ≠ "API_BASE_URL" := by decide
  unfold urlErrors
  split_ifs <;> simp_all

end ConfigMgr

/-- A configuration with two violations of different categories: the
required variable `USERNAME` is unset, and `TIMEOUT` is `5`, below its
declared minimum of `1000`. -/
def cfgBad : EnvValidation.Config :=
  [("BASE_URL", "http://app.example.com"),
   ("API_BASE_URL", "http://api.example.com"),
   ("PASSWORD", "secret"),
   ("TIMEOUT", "5")]

/-- C4 counterexample: `validateEnvironment` does not collect all
violations before returning.  On `cfgBad` it throws the missing-key
message alone, although the configuration also carries a numeric
violation that the later numeric loop would have flagged (second
conjunct) — the missing-key throw happens before the URL and numeric
checks ever run. -/
theorem C4_counterexample :
    EnvValidation.validateEnvironment (fun _ => true) cfgBad =
        Except.error "Missing required environment variables: USERNAME" ∧
      EnvValidation.firstNumericError cfgBad =
        some "Invalid TIMEOUT value: 5 (minimum: 1000)" :=
  ⟨rfl, rfl⟩

/-- C4 (amended): the collecting validator is
`ConfigManager.validateConfiguration`: it gathers every violation before
throwing — a configuration missing `k` required keys contributes exactly
one distinct missing-key error per key (first two conjuncts), and the
numeric and URL violations are still collected alongside them (third and
fourth conjuncts).  `validateEnvironment`, by contrast, reports all
missing required keys in a single aggregated message and returns before
any URL or numeric check when one is missing (last conjunct). -/
theorem C4_collects_all_violations (u : String → Bool)
    (env : ConfigMgr.EnvCfg) (cfg : EnvValidation.Config) :
    ((ConfigMgr.validateConfigurationErrors u env).filter
        ConfigMgr.isMissingKeyErr) =
      (ConfigMgr.requiredVars.filter fun k =>
        ConfigMgr.reqField env k = "").map ConfigMgr.ConfigError.missingKey ∧
    ((ConfigMgr.validateConfigurationErrors u env).filter
        ConfigMgr.isMissingKeyErr).Nodup ∧
    (ConfigMgr.ConfigError.timeoutTooSmall ∈
        ConfigMgr.validateConfigurationErrors u env ↔
      (ConfigMgr.numTruthy env.TIMEOUT &&
        ConfigMgr.numLt env.TIMEOUT 1000) = true) ∧
    (ConfigMgr.ConfigError.invalidUrl "BASE_URL" env.BASE_URL ∈
        ConfigMgr.validateConfigurationErrors u env ↔
      (env.BASE_URL ≠ "" ∧ u env.BASE_URL = false)) ∧
    (EnvValidation.missingList cfg ≠ [] →
      EnvValidation.validateEnvironment u cfg =
        Except.error ("Missing required environment variables: " ++
          String.intercalate ", " (EnvValidation.missingList cfg))) := by
  have hfilter : ((ConfigMgr.validateConfigurationErrors u env).filter
      ConfigMgr.isMissingKeyErr) =
      (ConfigMgr.requiredVars.filter fun k =>
        ConfigMgr.reqField env k = "").map
        ConfigMgr.ConfigError.missingKey := by
    unfold ConfigMgr.validateConfigurationErrors
    rw [List.filter_append, List.filter_append, List.filter_append,
      ConfigMgr.urlErrors_filter_missing,
      ConfigMgr.numericErrors_filter_missing,
      ConfigMgr.viewportErrors_filter_missing,
      ConfigMgr.missingKeyErrors_eq, ConfigMgr.filter_missing_map]
    simp
  refine ⟨hfilter, ?_, ?_, ?_, ?_⟩
  · rw [hfilter]
    have hnd : (ConfigMgr.requiredVars.filter fun k =>
        ConfigMgr.reqField env k = "").Nodup :=
      List.Nodup.filter _ (by decide)
    exact hnd.map fun a b h => ConfigMgr.ConfigError.missingKey.inj h
  · unfold ConfigMgr.validateConfigurationErrors
    simp only [List.mem_append]
    have h1 := ConfigMgr.timeout_not_mem_missing env
    have h2 := ConfigMgr.timeout_not_mem_url u env
    have h3 := ConfigMgr.timeout_not_mem_viewport env
    have h4 := ConfigMgr.timeout_mem_numericErrors env
    tauto
  · unfold ConfigMgr.validateConfigurationErrors
    simp only [List.mem_append]
    have h1 : ConfigMgr.ConfigError.invalidUrl "BASE_URL" env.BASE_URL ∉
        ConfigMgr.missingKeyErrors env := by
      rw [ConfigMgr.missingKeyErrors_eq]; simp
    have h2 := ConfigMgr.baseUrl_mem_urlErrors u env
    have h3 : ConfigMgr.ConfigError.invalidUrl "BASE_URL" env.BASE_URL ∉
        ConfigMgr.numericErrors env := by
      unfold ConfigMgr.numericErrors; split_ifs <;> simp
    have h4 : ConfigMgr.ConfigError.invalidUrl "BASE_URL" env.BASE_URL ∉
        ConfigMgr.viewportErrors env := by
      unfold ConfigMgr.viewportErrors; split_ifs <;> simp
    tauto
  · intro hne
    unfold EnvValidation.validateEnvironment
    have hlen : (EnvValidation.missingList cfg).length > 0 :=
      List.length_pos.mpr hne
    simp [hlen]

/-- C4 witness: the amended statement evaluated on a concrete
configuration missing two required keys (`USERNAME`, `PASSWORD`) with a
below-minimum `TIMEOUT`: both missing keys and the numeric violation are
all present in `validateConfiguration`'s error list, and
`validateEnvironment` aggregates both missing keys into its single
message. -/
theorem C4_collects_all_violations_witness :
    ((ConfigMgr.validateConfigurationErrors (fun _ => true)
        ⟨"http://a", "http://b", "", "", some 5, some 4, some 1280,
          some 720⟩).filter ConfigMgr.isMissingKeyErr) =
      [ConfigMgr.ConfigError.missingKey "USERNAME",
        ConfigMgr.ConfigError.missingKey "PASSWORD"] ∧
    (ConfigMgr.ConfigError.timeoutTooSmall ∈
      ConfigMgr.validateConfigurationErrors (fun _ => true)
        ⟨"http://a", "http://b", "", "", some 5, some 4, some 1280,
          some 720⟩) ∧
    EnvValidation.validateEnvironment (fun _ => true)
        [("BASE_URL", "http://a"), ("API_BASE_URL", "http://b")] =
      Except.error
        "Missing required environment variables: USERNAME, PASSWORD" := by
  have h := C4_collects_all_violations (fun _ => true)
    ⟨"http://a", "http://b", "", "", some 5, some 4, some 1280, some 720⟩
    [("BASE_URL", "http://a"), ("API_BASE_URL", "http://b")]
  refine ⟨?_, ?_, ?_⟩
  · rw [h.1]; rfl
  · exact h.2.2.1.mpr (by decide)
  · have := h.2.2.2.2 (by decide)
    simpa using this

namespace ConfigStore

/-- The mutable state of a `ConfigManager` instance
(`configManager.ts` lines 17-20): the loaded configuration
(`this.config.environment`) and the override table
(`this.environmentOverrides`).  `none` models an absent key. -/
structure ConfigState (V : Type) where
  configEnv : String → Option V
  overrides : String → Option V

/-- An ASCII single-quote, used in the error message below. -/
def sq : String := String.singleton (Char.ofNat 39)

/-- `ConfigManager.get` (`configManager.ts` lines 167-179): return the
override when one is defined, else the loaded configuration value, else
throw. -/
def get {V : Type} (s : ConfigState V) (k : String) : Except String V :=
  match s.overrides k with
  | some v => Except.ok v
  | none =>
    match s.configEnv k with
    | some c => Except.ok c
    | none =>
      Except.error ("Configuration value for " ++ sq ++ k ++ sq ++
        " is not defined")

/-- `ConfigManager.set` (`configManager.ts` lines 184-187): record an
override; the loaded configuration is untouched. -/
def set {V : Type} (s : ConfigState V) (k : String) (v : V) :
    ConfigState V :=
  { s with overrides := fun k2 => if k2 = k then some v else s.overrides k2 }

/-- `ConfigManager.clearOverrides` (`configManager.ts` lines 192-195):
reset the override table to empty. -/
def clearOverrides {V : Type} (s : ConfigState V) : ConfigState V :=
  { s with overrides := fun _ => none }

end ConfigStore

/-- A loaded configuration for the C10 witness: `TIMEOUT` resolved to
`30000`, nothing else defined, no overrides. -/
def demoStore : ConfigStore.ConfigState Nat :=
  ⟨fun k => if k = "TIMEOUT" then some 30000 else none, fun _ => none⟩

/-- C10: for every key `K` and value `v`, `get K` after `set K v` returns
`v`; `set` never mutates the loaded configuration; and after
`clearOverrides` a `get K` returns the originally loaded value whenever
the loaded configuration defines `K`. -/
theorem C10_overrides_roundtrip {V : Type} (s : ConfigStore.ConfigState V)
    (k : String) (v c : V) :
    ConfigStore.get (ConfigStore.set s k v) k = Except.ok v ∧
      (ConfigStore.set s k v).configEnv = s.configEnv ∧
      (ConfigStore.clearOverrides (ConfigStore.set s k v)).overrides =
        (fun _ => none) ∧
      (s.configEnv k = some c →
        ConfigStore.get (ConfigStore.clearOverrides (ConfigStore.set s k v))
            k = Except.ok c) := by
  refine ⟨?_, rfl, rfl, ?_⟩
  · unfold ConfigStore.get ConfigStore.set
    simp
  · intro h
    unfold ConfigStore.get ConfigStore.clearOverrides ConfigStore.set
    simp [h]

/-- C10 witness: on the concrete store whose loaded `TIMEOUT` is `30000`,
setting the override to `5` makes `get` return `5`, and clearing the
overrides makes `get` return the loaded `30000` again. -/
theorem C10_overrides_roundtrip_witness :
    ConfigStore.get (ConfigStore.set demoStore "TIMEOUT" 5) "TIMEOUT" =
        Except.ok 5 ∧
      ConfigStore.get
          (ConfigStore.clearOverrides (ConfigStore.set demoStore "TIMEOUT" 5))
          "TIMEOUT" = Except.ok 30000 := by
  have h := C10_overrides_roundtrip demoStore "TIMEOUT" 5 30000
  exact ⟨h.1, h.2.2.2 rfl⟩

namespace PerfAgg

/-- Category a parsed performance record is assigned
(`part_004` line 1222). -/
inductive PerfCategory where
  | pageLoad : PerfCategory
  | apiResponse : PerfCategory
deriving DecidableEq, Repr

/-- A parsed performance record (`part_004` lines 1193-1204).  `duration`
is `parseInt` of the logged duration string, `none` modelling `NaN`. -/
structure PerfRecord where
  testName : String
  type : PerfCategory
  duration : Option Nat
  timestamp : String
deriving DecidableEq, Repr

/-- The fields of a JSON log entry that `collectPerformanceData` reads.
`JSON.parse` itself is an external collaborator, modelled as a function
`String → Option LogEntry` (`none` = the parse threw). -/
structure LogEntry where
  action : Option String
  duration : Option String
  timestamp : String

/-- Marker that selects performance lines (`part_004` line 1213). -/
def perfMarker : String := "\x22type\x22:\x22performance\x22"

/-- Whether `needle` is a prefix of `hay`, on character lists. -/
def startsWithChars : List Char → List Char → Bool
  | [], _ => true
  | _ :: _, [] => false
  | a :: as, b :: bs => a = b && startsWithChars as bs

/-- Whether `needle` occurs in `hay`, on character lists. -/
def containsChars (needle : List Char) : List Char → Bool
  | [] => startsWithChars needle []
  | c :: rest =>
    startsWithChars needle (c :: rest) || containsChars needle rest

/-- JavaScript `hay.includes(needle)`: case-sensitive substring test. -/
def containsSub (needle hay : String) : Bool :=
  containsChars needle.toList hay.toList

/-- Remove the first occurrence of `pat` from a character list. -/
def removeFirstChars (pat : List Char) : List Char → List Char
  | [] => []
  | c :: rest =>
    if startsWithChars pat (c :: rest) then (c :: rest).drop pat.length
    else c :: removeFirstChars pat rest

/-- JavaScript `s.replace('ms', '')`: drop the first occurrence of
`"ms"` (`part_004` line 1218). -/
def stripMs (s : String) : String :=
  String.mk (removeFirstChars ['m', 's'] s.toList)

/-- The per-line body of `collectPerformanceData` (`part_004` lines
1212-1231): keep lines containing the performance marker, `JSON.parse`
them (a throwing parse is silently skipped), require truthy `action` and
`duration`, strip `"ms"`, `parseInt` the duration, and classify by
whether the action label contains the substring `"API"`. -/
def parsePerfLine (jsonParse : String → Option LogEntry) (line : String) :
    Option PerfRecord :=
  if containsSub perfMarker line then
    match jsonParse line with
    | some e =>
      match e.action, e.duration with
      | some a, some d =>
        if a ≠ "" && d ≠ "" then
          some ⟨a,
            if containsSub "API" a then PerfCategory.apiResponse
            else PerfCategory.pageLoad,
            EnvValidation.parseIntJs (stripMs d), e.timestamp⟩
        else none
      | _, _ => none
    | none => none
  else none

/-- `collectPerformanceData` (`part_004` lines 1193-1240) over a list of
log lines. -/
def collectPerformanceData (jsonParse : String → Option LogEntry)
    (lines : List String) : List PerfRecord :=
  lines.filterMap (parsePerfLine jsonParse)

/-- A JavaScript number that is either finite or `-Infinity`, the result
type of `Math.max(...list)`. -/
inductive JsMax where
  | negInf : JsMax
  | val (n : Nat) : JsMax
deriving DecidableEq, Repr

/-- `Math.max(...l)`: `-Infinity` when `l` is empty. -/
def mathMax (l : List Nat) : JsMax :=
  l.foldl
    (fun acc n =>
      match acc with
      | JsMax.negInf => JsMax.val n
      | JsMax.val m => JsMax.val (max m n))
    JsMax.negInf

/-- JavaScript `+` where either operand may be `NaN` (`none`). -/
def jsAdd : Option Nat → Option Nat → Option Nat
  | some a, some b => some (a + b)
  | _, _ => none

/-- `data.reduce((acc, item) => acc + item.duration, 0)`. -/
def jsSum (l : List (Option Nat)) : Option Nat := l.foldl jsAdd (some 0)

/-- `calculateAverage` (`part_004` lines 1245-1249): `0` for an empty
list, else the sum divided by the length.  The result is a JavaScript
number: `none` models `NaN` (a list containing a `NaN` duration). -/
def calculateAverage (data : List PerfRecord) : Option Rat :=
  if data.length = 0 then some 0
  else
    match jsSum (data.map fun d => d.duration) with
    | none => none
    | some s => some ((s : Rat) / (data.length : Rat))

/-- JavaScript `d.duration > t` where the duration may be `NaN`: any
comparison with `NaN` is false. -/
def durGt (d : Option Nat) (t : Nat) : Bool :=
  match d with
  | none => false
  | some n => t < n

/-- The performance report built by `generatePerformanceSummary`
(`part_004` lines 1148-1165). -/
structure PerfReport where
  totalMeasurements : Nat
  averagePageLoad : Option Rat
  averageApiResponse : Option Rat
  slowestPageLoad : JsMax
  slowestApiResponse : JsMax
  pageLoadThreshold : Nat
  apiResponseThreshold : Nat
  violations : List PerfRecord

/-- `generatePerformanceSummary` (`part_004` lines 1140-1188), with the
two thresholds as parameters (the source reads them from the
environment).  `slowest…` uses `Math.max(...durations)` where each `NaN`
duration was already guarded by `|| 0` — but nothing guards the spread of
an empty list. -/
def generatePerformanceSummary (data : List PerfRecord)
    (pageLoadThreshold apiResponseThreshold : Nat) : PerfReport :=
  { totalMeasurements := data.length
  , averagePageLoad :=
      calculateAverage (data.filter fun d => d.type = PerfCategory.pageLoad)
  , averageApiResponse :=
      calculateAverage
        (data.filter fun d => d.type = PerfCategory.apiResponse)
  , slowestPageLoad :=
      mathMax ((data.filter fun d => d.type = PerfCategory.pageLoad).map
        fun d => d.duration.getD 0)
  , slowestApiResponse :=
      mathMax ((data.filter fun d => d.type = PerfCategory.apiResponse).map
        fun d => d.duration.getD 0)
  , pageLoadThreshold := pageLoadThreshold
  , apiResponseThreshold := apiResponseThreshold
  , violations :=
      data.filter fun d =>
        (decide (d.type = PerfCategory.pageLoad) &&
          durGt d.duration pageLoadThreshold) ||
        (decide (d.type = PerfCategory.apiResponse) &&
          durGt d.duration apiResponseThreshold) }

end PerfAgg

/-- C5 counterexample: aggregating an empty sequence of log lines does
not yield `max = 0` — the source computes `Math.max(...[])`, which is
`-Infinity`, and nothing guards it to `0`. -/
theorem C5_counterexample :
    (PerfAgg.generatePerformanceSummary
        (PerfAgg.collectPerformanceData (fun _ => none) []) 5000
        3000).slowestPageLoad = PerfAgg.JsMax.negInf ∧
      (PerfAgg.generatePerformanceSummary
          (PerfAgg.collectPerformanceData (fun _ => none) []) 5000
          3000).slowestPageLoad ≠ PerfAgg.JsMax.val 0 :=
  ⟨rfl, by decide⟩

/-- C5 (amended): for every parser behaviour and every thresholds value,
aggregating an empty sequence of log lines yields, for each category,
count 0, average 0 and an empty violations list — but the category maxima
are `-Infinity` (the unguarded `Math.max()` of no arguments), not 0. -/
theorem C5_empty_aggregate
    (jsonParse : String → Option PerfAgg.LogEntry)
    (pageLoadThreshold apiResponseThreshold : Nat) :
    (PerfAgg.generatePerformanceSummary
        (PerfAgg.collectPerformanceData jsonParse [])
        pageLoadThreshold apiResponseThreshold).totalMeasurements = 0 ∧
      (PerfAgg.generatePerformanceSummary
          (PerfAgg.collectPerformanceData jsonParse [])
          pageLoadThreshold apiResponseThreshold).averagePageLoad =
        some 0 ∧
      (PerfAgg.generatePerformanceSummary
          (PerfAgg.collectPerformanceData jsonParse [])
          pageLoadThreshold apiResponseThreshold).averageApiResponse =
        some 0 ∧
      (PerfAgg.generatePerformanceSummary
          (PerfAgg.collectPerformanceData jsonParse [])
          pageLoadThreshold apiResponseThreshold).violations = [] ∧
      (PerfAgg.generatePerformanceSummary
          (PerfAgg.collectPerformanceData jsonParse [])
          pageLoadThreshold apiResponseThreshold).slowestPageLoad =
        PerfAgg.JsMax.negInf ∧
      (PerfAgg.generatePerformanceSummary
          (PerfAgg.collectPerformanceData jsonParse [])
          pageLoadThreshold apiResponseThreshold).slowestApiResponse =
        PerfAgg.JsMax.negInf :=
  ⟨rfl, rfl, rfl, rfl, rfl, rfl⟩

namespace PerfAgg

theorem parsePerfLine_type (jsonParse : String → Option LogEntry)
    (line : String) (r : PerfRecord)
    (h : parsePerfLine jsonParse line = some r) :
    r.type = PerfCategory.apiResponse ↔
      containsSub "API" r.testName = true := by
  unfold parsePerfLine at h
  split at h
  · split at h
    · split at h
      · split at h
        · injection h with h
          subst h
          dsimp only
          split <;> simp_all
        · exact absurd h (by simp)
      · exact absurd h (by simp)
    · exact absurd h (by simp)
  · exact absurd h (by simp)

/-- JavaScript `x || d` for a `string | undefined` value: `undefined`
and the empty string fall back to the default. -/
def jsOr (v : Option String) (d : String) : String :=
  match v with
  | some s => if s = "" then d else s
  | none => d

/-- `parseInt(logEntry.duration)` where the field may be absent:
`parseInt(undefined)` is `NaN` (here `none`). -/
def parseIntOfField (d : Option String) : Option Nat :=
  match d with
  | some s => EnvValidation.parseIntJs s
  | none => none

/-- A record pushed by the other `collectPerformanceData` variant
(`part_004` lines 651-694): instead of a single category field it
carries two optional measurements.  The outer `Option` is
presence/`undefined`; the inner `Option Nat` is the parsed number, with
`none` modelling `NaN`. -/
structure PerfRecordV1 where
  testName : String
  pageLoad : Option (Option Nat)
  apiResponse : Option (Option Nat)
  timestamp : String
deriving DecidableEq, Repr

/-- The per-line body of the `collectPerformanceData` at `part_004`
lines 651-694 (lines 670-685): on a marker line whose `JSON.parse`
succeeds, push a record unconditionally — there is no truthiness guard
on `action`/`duration` here.  `testName` is `action || 'unknown'`;
`pageLoad` is set only when `action === 'Page Navigation'` exactly;
`apiResponse` is set only when `action?.includes('API')`.  A record
whose label is neither gets neither measurement. -/
def parsePerfLineV1 (jsonParse : String → Option LogEntry)
    (line : String) : Option PerfRecordV1 :=
  if containsSub perfMarker line then
    match jsonParse line with
    | some e =>
      some ⟨jsOr e.action "unknown",
        if e.action = some "Page Navigation" then
          some (parseIntOfField e.duration)
        else none,
        match e.action with
        | some a =>
          if containsSub "API" a then some (parseIntOfField e.duration)
          else none
        | none => none,
        e.timestamp⟩
    | none => none
  else none

/-- The `collectPerformanceData` at `part_004` lines 651-694 over a list
of log lines. -/
def collectPerformanceDataV1 (jsonParse : String → Option LogEntry)
    (lines : List String) : List PerfRecordV1 :=
  lines.filterMap (parsePerfLineV1 jsonParse)

theorem parsePerfLineV1_fields (jsonParse : String → Option LogEntry)
    (line : String) (r : PerfRecordV1)
    (h : parsePerfLineV1 jsonParse line = some r) :
    (r.apiResponse ≠ none ↔ containsSub "API" r.testName = true) ∧
      (r.pageLoad ≠ none ↔ r.testName = "Page Navigation") := by
  unfold parsePerfLineV1 at h
  split at h
  · split at h
    · rename_i e heq
      injection h with h
      subst h
      dsimp only
      cases ha : e.action with
      | none => refine ⟨?_, ?_⟩ <;> (simp [jsOr]; try decide)
      | some a =>
        by_cases hae : a = ""
        · subst hae
          refine ⟨?_, ?_⟩ <;> (simp [jsOr]; try decide)
        · refine ⟨?_, ?_⟩
          · by_cases hA : containsSub "API" a = true <;>
              simp [jsOr, hae, hA]
          · by_cases hP : a = "Page Navigation" <;>
              simp [jsOr, hae, hP]
    · exact absurd h (by simp)
  · exact absurd h (by simp)

end PerfAgg

/-- A concrete performance log line and its parsed JSON fields, used by
the C7 witness. -/
def demoLogLine : String :=
  "info \x22type\x22:\x22performance\x22 API GET /users 123ms"

/-- A concrete `JSON.parse` behaviour on `demoLogLine`. -/
def demoJsonParse : String → Option PerfAgg.LogEntry := fun l =>
  if l = demoLogLine then
    some ⟨some "API GET /users", some "123ms", "2024-01-01"⟩
  else none

/-- A concrete performance log line whose label is neither
`'Page Navigation'` nor contains `"API"`. -/
def demoFormLine : String :=
  "info \x22type\x22:\x22performance\x22 Form Submit 42ms"

/-- A concrete `JSON.parse` behaviour on `demoFormLine`. -/
def demoFormJsonParse : String → Option PerfAgg.LogEntry := fun l =>
  if l = demoFormLine then
    some ⟨some "Form Submit", some "42ms", "2024-01-01"⟩
  else none

/-- C7 counterexample: in the `collectPerformanceData` variant at
`part_004` lines 651-694, a parsed record whose label (`"Form Submit"`)
does not contain `"API"` is not assigned category `PageLoad` either —
both its `pageLoad` and `apiResponse` measurements are `undefined`,
because `pageLoad` is set only when the label is exactly
`'Page Navigation'`. -/
theorem C7_no_category_counterexample :
    PerfAgg.collectPerformanceDataV1 demoFormJsonParse [demoFormLine] =
        [PerfAgg.PerfRecordV1.mk "Form Submit" none none "2024-01-01"] ∧
      PerfAgg.containsSub "API" "Form Submit" = false :=
  ⟨rfl, rfl⟩

/-- C7 (amended): in the `collectPerformanceData` at `part_004` lines
1193-1240, every record is assigned category `apiResponse` if and only
if its label contains the substring `"API"` (case-sensitive), otherwise
`pageLoad`.  In the variant at lines 651-694 the `apiResponse`
measurement is present if and only if the label contains `"API"`, but
the `pageLoad` measurement is present if and only if the label is
exactly `'Page Navigation'` — a record with neither label gets no
category at all, not `PageLoad`. -/
theorem C7_label_categories (jsonParse : String → Option PerfAgg.LogEntry)
    (lines : List String) :
    (∀ r ∈ PerfAgg.collectPerformanceData jsonParse lines,
      (r.type = PerfAgg.PerfCategory.apiResponse ↔
        PerfAgg.containsSub "API" r.testName = true)) ∧
      (∀ r ∈ PerfAgg.collectPerformanceDataV1 jsonParse lines,
        (r.apiResponse ≠ none ↔
          PerfAgg.containsSub "API" r.testName = true)) ∧
      (∀ r ∈ PerfAgg.collectPerformanceDataV1 jsonParse lines,
        (r.pageLoad ≠ none ↔ r.testName = "Page Navigation")) := by
  refine ⟨?_, ?_, ?_⟩
  · intro r hr
    unfold PerfAgg.collectPerformanceData at hr
    rcases List.mem_filterMap.mp hr with ⟨line, _, hline⟩
    exact PerfAgg.parsePerfLine_type jsonParse line r hline
  · intro r hr
    unfold PerfAgg.collectPerformanceDataV1 at hr
    rcases List.mem_filterMap.mp hr with ⟨line, _, hline⟩
    exact (PerfAgg.parsePerfLineV1_fields jsonParse line r hline).1
  · intro r hr
    unfold PerfAgg.collectPerformanceDataV1 at hr
    rcases List.mem_filterMap.mp hr with ⟨line, _, hline⟩
    exact (PerfAgg.parsePerfLineV1_fields jsonParse line r hline).2

/-- C7 witness: the amended statement evaluated on the concrete
`"API GET /users"` line, whose record is assigned `apiResponse` in the
lines-1193-1240 variant and gets the `apiResponse` measurement (and not
the `pageLoad` one) in the lines-651-694 variant. -/
theorem C7_label_categories_witness :
    ((PerfAgg.PerfRecord.mk "API GET /users"
          PerfAgg.PerfCategory.apiResponse (some 123) "2024-01-01").type =
        PerfAgg.PerfCategory.apiResponse ↔
      PerfAgg.containsSub "API"
          (PerfAgg.PerfRecord.mk "API GET /users"
            PerfAgg.PerfCategory.apiResponse (some 123)
            "2024-01-01").testName = true) ∧
      ((PerfAgg.PerfRecordV1.mk "API GET /users" none (some (some 123))
            "2024-01-01").apiResponse ≠ none ↔
        PerfAgg.containsSub "API"
            (PerfAgg.PerfRecordV1.mk "API GET /users" none
              (some (some 123)) "2024-01-01").testName = true) ∧
      ((PerfAgg.PerfRecordV1.mk "API GET /users" none (some (some 123))
            "2024-01-01").pageLoad ≠ none ↔
        (PerfAgg.PerfRecordV1.mk "API GET /users" none (some (some 123))
          "2024-01-01").testName = "Page Navigation") := by
  have h := C7_label_categories demoJsonParse [demoLogLine]
  exact ⟨h.1 _ (by decide), h.2.1 _ (by decide), h.2.2 _ (by decide)⟩

namespace Probe

/-- The polling loop of `ApiHelper.waitForEndpoint` (`part_002` lines
1248-1282): while the elapsed time is below `timeout`, issue one check
(`check count` is the HTTP status of the `count`-th probe; a transport
error is represented the same way as a 5xx status, since both take the
"continue waiting" path), return `true` on any status below 500,
otherwise sleep `interval` milliseconds and loop.  Probe calls are
instantaneous in this time model; the fuel argument only bounds the
recursion and is chosen large enough never to run out.  Returns the
result together with the number of checks issued. -/
def waitForEndpointAux (check : Nat → Nat) (timeout interval : Nat) :
    Nat → Nat → Nat → Bool × Nat
  | 0, _, count => (false, count)
  | fuel + 1, elapsed, count =>
    if elapsed < timeout then
      if check count < 500 then (true, count + 1)
      else waitForEndpointAux check timeout interval fuel
        (elapsed + interval) (count + 1)
    else (false, count)

/-- `waitForEndpoint` with its loop started at time 0. -/
def waitForEndpoint (check : Nat → Nat) (timeout interval : Nat) :
    Bool × Nat :=
  waitForEndpointAux check timeout interval (timeout + 1) 0 0

theorem waitForEndpointAux_const (check : Nat → Nat)
    (h : ∀ k, check k = 503) (timeout interval fuel elapsed count : Nat) :
    waitForEndpointAux check timeout interval fuel elapsed count =
      waitForEndpointAux (fun _ => 503) timeout interval fuel elapsed
        count := by
  induction fuel generalizing elapsed count with
  | zero => rfl
  | succ f ih => simp [waitForEndpointAux, h, ih]

end Probe

/-- C6: for a check that always returns status 503, `waitForEndpoint`
with `timeout = 200` and `interval = 50` returns `false` (it never
throws: non-availability is reported as a value) after invoking the
check exactly 4 times — at elapsed times 0, 50, 100 and 150 — which is
at least 3 and not more than 5. -/
theorem C6_always_unavailable (check : Nat → Nat)
    (h : ∀ k, check k = 503) :
    Probe.waitForEndpoint check 200 50 = (false, 4) ∧
      3 ≤ (Probe.waitForEndpoint check 200 50).2 ∧
      (Probe.waitForEndpoint check 200 50).2 ≤ 5 := by
  have heq : Probe.waitForEndpoint check 200 50 = (false, 4) := by
    unfold Probe.waitForEndpoint
    rw [Probe.waitForEndpointAux_const check h]
    decide
  refine ⟨heq, ?_, ?_⟩
  · rw [heq]
    decide
  · rw [heq]
    decide

/-- C6 witness: the theorem evaluated at the constant-503 check. -/
theorem C6_always_unavailable_witness :
    Probe.waitForEndpoint (fun _ => 503) 200 50 = (false, 4) :=
  (C6_always_unavailable (fun _ => 503) (fun _ => rfl)).1

namespace Artifacts

/-- The copy loop of `organizeArtifacts` in the first teardown variant
(`part_004` lines 528-557): `fs.copyFile` is not guarded per file, so a
copy failure escapes the loop to the function's outer `catch`, which logs
a warning and returns — the remaining files of that pass are never
copied.  `matched` is the regex test on the file name (the regex engine is
an external collaborator) and `copyRes` is what the filesystem does when
asked to copy a given file.  Returns the files actually copied and the
error that aborted the loop, if any. -/
def organizeArtifactsNoGuard (matched : String → Bool)
    (copyRes : String → Except String Unit) :
    List String → List String × Option String
  | [] => ([], none)
  | f :: rest =>
    if matched f then
      match copyRes f with
      | Except.ok _ =>
        let (copied, aborted) := organizeArtifactsNoGuard matched copyRes rest
        (f :: copied, aborted)
      | Except.error e => ([], some e)
    else organizeArtifactsNoGuard matched copyRes rest

/-- The copy loop of `organizeArtifacts` in the second teardown variant
(`part_004` lines 971-1006): each `fs.copyFile` sits in its own
`try`/`catch` that logs the failure and continues, so one failed copy
never stops the rest of the batch.  Returns the files actually copied. -/
def organizeArtifactsGuarded (matched : String → Bool)
    (copyRes : String → Except String Unit) : List String → List String
  | [] => []
  | f :: rest =>
    if matched f then
      match copyRes f with
      | Except.ok _ => f :: organizeArtifactsGuarded matched copyRes rest
      | Except.error _ => organizeArtifactsGuarded matched copyRes rest
    else organizeArtifactsGuarded matched copyRes rest

/-- Whether copying a given file would succeed. -/
def copyOk (copyRes : String → Except String Unit) (f : String) : Bool :=
  match copyRes f with
  | Except.ok _ => true
  | Except.error _ => false

end Artifacts

/-- A filesystem on which copying `a.png` fails and every other copy
succeeds. -/
def demoCopyRes : String → Except String Unit := fun f =>
  if f = "a.png" then Except.error "EACCES: permission denied" else
    Except.ok ()

/-- C8 counterexample: in the unguarded `organizeArtifacts` variant, the
failing copy of `a.png` aborts the batch — `b.png` is matched and
copyable (second conjunct) yet ends up not copied, because the error is
only caught outside the loop. -/
theorem C8_counterexample :
    Artifacts.organizeArtifactsNoGuard (fun _ => true) demoCopyRes
        ["a.png", "b.png"] = ([], some "EACCES: permission denied") ∧
      demoCopyRes "b.png" = Except.ok () :=
  ⟨rfl, rfl⟩

/-- C8 (amended): in the guarded `organizeArtifacts` variant (`part_004`
lines 971-1006) a copy failure for one matched file is logged and skipped
and never aborts the batch: the files copied are exactly the matched
files whose individual copy succeeds, regardless of failures among the
others.  In the unguarded variant (`part_004` lines 528-557) a single
copy failure ends that pass's copying (though the error is still caught
and does not escape the teardown). -/
theorem C8_copy_failure_isolated (matched : String → Bool)
    (copyRes : String → Except String Unit) (files : List String) :
    Artifacts.organizeArtifactsGuarded matched copyRes files =
      files.filter fun f => matched f && Artifacts.copyOk copyRes f := by
  induction files with
  | nil => rfl
  | cons f rest ih =>
    by_cases hm : matched f = true
    · cases hc : copyRes f with
      | ok u =>
        cases u
        simp [Artifacts.organizeArtifactsGuarded, Artifacts.copyOk,
          List.filter_cons, hm, hc, ih]
      | error e =>
        simp [Artifacts.organizeArtifactsGuarded, Artifacts.copyOk,
          List.filter_cons, hm, hc, ih]
    · simp [Artifacts.organizeArtifactsGuarded, List.filter_cons, hm, ih]
